import Mathlib

/-!
Shallow embedding of the SeekSteeringBehaviourModded repository
(`src/src/OpenSteerDemo.cpp`, `src/include/OpenSteer/OpenSteerDemo.h`).

The repository contains the "multiple pursuit" OpenSteer demo: one wandering
quarry agent and a roster of pursuers that chase it, driven by a host loop.
The OpenSteer support library (`Vec3`, `SimpleVehicle`, the steering library
and the random helpers) is not part of the repository's sources; where a
claim depends on it, the corresponding definition is modelled from the
specification (`spec.md`) and marked `Modelled from the spec:` in its doc
comment.  Machine floats are modelled as real numbers.
-/

noncomputable section

/-- Three-component real vector, the embedding of OpenSteer's `Vec3`
(used both as a position and as a direction). -/
@[ext]
structure Vec3 where
  x : ℝ
  y : ℝ
  z : ℝ

instance : Add Vec3 := ⟨fun a b => ⟨a.x + b.x, a.y + b.y, a.z + b.z⟩⟩

instance : Sub Vec3 := ⟨fun a b => ⟨a.x - b.x, a.y - b.y, a.z - b.z⟩⟩

/-- Scalar multiplication on the right, as in the C++ `Vec3 * float`. -/
instance : HMul Vec3 ℝ Vec3 := ⟨fun v s => ⟨v.x * s, v.y * s, v.z * s⟩⟩

def Vec3.zero : Vec3 := ⟨0, 0, 0⟩

/-- Euclidean length of a vector (`Vec3::length`). -/
def Vec3.length (v : Vec3) : ℝ := Real.sqrt (v.x ^ 2 + v.y ^ 2 + v.z ^ 2)

/-- Distance between two points (`Vec3::distance(a, b) = (a - b).length()`). -/
def Vec3.distance (a b : Vec3) : ℝ := Vec3.length (a - b)

/-- Zero out the vertical component (`Vec3::setYtoZero`). -/
def Vec3.setYtoZero (v : Vec3) : Vec3 := ⟨v.x, 0, v.z⟩

/-- Division of a vector by a scalar, used to normalize a direction. -/
def Vec3.divScalar (v : Vec3) (s : ℝ) : Vec3 := ⟨v.x / s, v.y / s, v.z / s⟩

@[simp]
theorem Vec3.add_def (a b : Vec3) : a + b = ⟨a.x + b.x, a.y + b.y, a.z + b.z⟩ := rfl

@[simp]
theorem Vec3.sub_def (a b : Vec3) : a - b = ⟨a.x - b.x, a.y - b.y, a.z - b.z⟩ := rfl

@[simp]
theorem Vec3.smul_def (v : Vec3) (s : ℝ) : v * s = ⟨v.x * s, v.y * s, v.z * s⟩ := rfl

/-- Kinematic agent state: the embedding of the `SimpleVehicle` data that the
claims refer to.  `position`, the heading `forward`, the scalar `speed` and the
limits `maxForce`, `maxSpeed`, `radius` are the fields named by the spec's data
model (§3); the drawing-only fields (trail, body color, annotation flags) and
the redundant `side`/`up` basis vectors, which no claim mentions, are omitted. -/
@[ext]
structure Agent where
  position : Vec3
  forward : Vec3
  speed : ℝ
  maxForce : ℝ
  maxSpeed : ℝ
  radius : ℝ

/-- Modelled from the spec: `SimpleVehicle::reset` is library code not under
`src/`; §3 says reset "reinitializes basis/speed/position".  The basis is reset
to the default horizontal heading `(0,0,1)`, position to the origin and speed
to `0`; the limit fields are left to `MpBase.reset`, which (in `src`) overwrites
them, and `radius`, for which the spec gives no value, is preserved. -/
def SimpleVehicle.reset (p : Agent) : Agent :=
  { p with position := Vec3.zero, forward := ⟨0, 0, 1⟩, speed := 0 }

/-- `MpBase::reset` (src/src/OpenSteerDemo.cpp lines 83-91): reset the vehicle,
then set `speed = 0`, `maxForce = 5.0`, `maxSpeed = 3.0`.  The trail and
annotation bookkeeping is drawing-only and omitted. -/
def MpBase.reset (p : Agent) : Agent :=
  { SimpleVehicle.reset p with speed := 0, maxForce := 5, maxSpeed := 3 }

/-- Random values consumed by one pursuer reset: `ringUnit` stands for the
uniform draw of `frandom2` (valid when in `[0,1]`), `ringAngle` for the angle
drawn by `RandomUnitVectorOnXZPlane`, and `headingAngle` for the angle drawn
by `randomizeHeadingOnXZPlane`. -/
structure ResetRng where
  ringUnit : ℝ
  ringAngle : ℝ
  headingAngle : ℝ

/-- Modelled from the spec: `frandom2` (library code not under `src/`) returns
a random number on the interval `[lo, hi]`; the uniform draw on `[0,1]` is the
explicit argument `u`. -/
def frandom2 (u lo hi : ℝ) : ℝ := lo + u * (hi - lo)

/-- Modelled from the spec: `RandomUnitVectorOnXZPlane` (library code not under
`src/`) returns a unit-length vector in the horizontal (XZ) plane; the random
angle is the explicit argument `theta`. -/
def RandomUnitVectorOnXZPlane (theta : ℝ) : Vec3 :=
  ⟨Real.cos theta, 0, Real.sin theta⟩

/-- Modelled from the spec: `randomizeHeadingOnXZPlane` (library code not under
`src/`) randomizes the heading uniformly in the horizontal plane (§4.4); the
random angle is the explicit argument `phi`. -/
def randomizeHeadingOnXZPlane (phi : ℝ) (p : Agent) : Agent :=
  { p with forward := ⟨Real.cos phi, 0, Real.sin phi⟩ }

/-- `MpPursuer::randomizeStartingPositionAndHeading` (src lines 160-172):
radius drawn by `frandom2` between `inner = 20` and `outer = 30`, position set
to the wanderer's position plus a random unit XZ vector times that radius,
then the 2D heading is randomized. -/
def MpPursuer.randomizeStartingPositionAndHeading (rng : ResetRng) (w p : Agent) : Agent :=
  let inner : ℝ := 20
  let outer : ℝ := 30
  let radius := frandom2 rng.ringUnit inner outer
  let randomOnRing := RandomUnitVectorOnXZPlane rng.ringAngle * radius
  randomizeHeadingOnXZPlane rng.headingAngle
    { p with position := w.position + randomOnRing }

/-- `MpPursuer::reset` (src lines 139-144): `MpBase::reset` (the reddish body
color is drawing-only and omitted) followed by
`randomizeStartingPositionAndHeading`, which reads the wanderer `w`. -/
def MpPursuer.reset (rng : ResetRng) (w p : Agent) : Agent :=
  MpPursuer.randomizeStartingPositionAndHeading rng w (MpBase.reset p)

/-- `MpWanderer::reset` (src lines 113-117): `MpBase::reset` plus the greenish
body color, which is drawing-only and omitted. -/
def MpWanderer.reset (p : Agent) : Agent := MpBase.reset p

/-- Modelled from the spec: §4.1 step 1 — clamp a force to length at most
`maxLen`, rescaling to exactly `maxLen` when the input exceeds the cap and
never amplifying (the library `Vec3::truncateLength` is not under `src/`). -/
def truncateLength (v : Vec3) (maxLen : ℝ) : Vec3 :=
  if Vec3.length v ≤ maxLen then v else v * (maxLen / Vec3.length v)

/-- Modelled from the spec: `applySteeringForce` (library code not under
`src/`), following §4.1 step by step: clamp the force to `maxForce`,
acceleration equals the clamped force (mass 1), integrate
`velocity = forward * speed + acceleration * dt`, clamp the new speed to
`[0, maxSpeed]`, reorient `forward` to the velocity direction when the new
speed is positive (the spec allows direct adoption of the velocity direction)
and retain the prior heading otherwise, and integrate
`position += velocity * dt`. -/
def applySteeringForce (p : Agent) (force : Vec3) (dt : ℝ) : Agent :=
  let clipped := truncateLength force p.maxForce
  let velocity := p.forward * p.speed + clipped * dt
  let newSpeed := min (max (Vec3.length velocity) 0) p.maxSpeed
  let newForward :=
    if 0 < newSpeed then velocity.divScalar (Vec3.length velocity) else p.forward
  { p with
    position := p.position + velocity * dt
    forward := newForward
    speed := newSpeed }

/-- Modelled from the spec: §4.2 `seek(target, agent)` (library code not under
`src/`) returns `target - agent.position`; the cap to `maxForce` is realized by
the clamping step of §4.1 ("never amplify"), not here. -/
def steerForSeek (p : Agent) (target : Vec3) : Vec3 := target - p.position

/-- Modelled from the spec: §4.3 step 2's clamp of the estimated prediction
time to `[0, maxPredictionTime]`. -/
def predictionTime (est maxPredictionTime : ℝ) : ℝ :=
  min (max est 0) maxPredictionTime

/-- Modelled from the spec: `steerForPursuit` (library code not under `src/`),
following §4.3: estimate a prediction time, clamp it to
`[0, maxPredictionTime]`, extrapolate
`predictedPosition = quarry.position + quarry.forward * quarry.speed * t`, and
return `seek(predictedPosition, pursuer)`.  §9 directs that the exact
closing-speed heuristic be treated "as a tunable policy, not a bit-exact
contract — only the clamping bound and degenerate-case behavior are
load-bearing", so the unclamped estimate is the explicit argument `est`. -/
def steerForPursuit (est : ℝ) (p q : Agent) (maxPredictionTime : ℝ) : Vec3 :=
  let t := predictionTime est maxPredictionTime
  let predictedPosition := q.position + q.forward * (q.speed * t)
  steerForSeek p predictedPosition

/-- `MpWanderer::update` (src lines 120-125): `wander2d` is the wander output
with its Y component zeroed, the steering force is `forward() + wander2d * 3`,
applied via `applySteeringForce`.  `steerForWander` is library code not under
`src/`; the spec (§4.2) describes it as a band-limited pseudo-random
perturbation, so its raw output for this tick is the explicit argument
`wanderRaw`. -/
def MpWanderer.update (wanderRaw : Vec3) (dt : ℝ) (p : Agent) : Agent :=
  let wander2d := Vec3.setYtoZero wanderRaw
  let steer := p.forward + wander2d * (3 : ℝ)
  applySteeringForce p steer dt

/-- `MpPursuer::update` (src lines 147-157): compute the distance `d` between
pursuer and wanderer and the radius sum `r`; if `d < r`, reset; then — with no
`else` — apply `steerForPursuit (*wanderer, maxTime)` with `maxTime = 20` via
`applySteeringForce`, on every tick, to the possibly-just-reset state. -/
def MpPursuer.update (est : ℝ) (rng : ResetRng) (dt : ℝ) (w p : Agent) : Agent :=
  let d := Vec3.distance p.position w.position
  let r := p.radius + w.radius
  let p1 := if d < r then MpPursuer.reset rng w p else p
  applySteeringForce p1 (steerForPursuit est p1 w 20) dt

/-- Per-pursuer, per-tick environment: the pursuit-time estimate fed to
`steerForPursuit` and the random draws consumed if this tick resets. -/
structure PEnv where
  est : ℝ
  rng : ResetRng

/-- State of `MpPlugIn`: the wanderer (the C++ keeps both the `wanderer`
pointer and slot 0 of `allMP`; they alias, so one field suffices) and the
pursuers in creation order (`allMP` positions `pBegin` to `pEnd`). -/
structure MpPlugInState where
  wanderer : Agent
  pursuers : List Agent

/-- `allVehicles` (src lines 197-199): the roster list `allMP`, wanderer first
then the pursuers in creation order. -/
def MpPlugIn.allVehicles (s : MpPlugInState) : List Agent :=
  s.wanderer :: s.pursuers

/-- `MpPlugIn::MpPlugIn(int n)` followed by `MpPlugIn::open` (src lines
202-224, C++ name `open`, a Lean keyword): construct the wanderer (whose
constructor runs `reset`), then run `for (int i = 0; i < pursuerCount; i++)`
pushing a new pursuer each iteration — for a negative `n` (a C++ `int`) the
loop body never runs, so `Int.toNat` models the iteration count.  Each
pursuer's constructor resets it, randomizing its start around the
already-constructed wanderer.  `initW`/`initP` are the raw pre-reset vehicle
states (the constructor overwrites every field the claims mention except
`radius`); `rngs i` is the randomness consumed by pursuer `i`'s reset.  The
camera initialization is drawing-only and omitted. -/
def MpPlugIn.openRoster (n : ℤ) (initW : Agent) (initP : ℕ → Agent)
    (rngs : ℕ → ResetRng) : MpPlugInState :=
  let w := MpWanderer.reset initW
  { wanderer := w
    pursuers := (List.range n.toNat).map fun i => MpPursuer.reset (rngs i) w (initP i) }

/-- `MpPlugIn::update` (src lines 226-236): update the wanderer first, then
each pursuer from `pBegin` to `pEnd` in roster order.  Each pursuer reads the
wanderer through its pointer, hence sees the state the wanderer's update of
this same tick already produced.  `wanderRaw` is the wander output consumed by
the wanderer this tick and `env i` the environment of pursuer `i`. -/
def MpPlugIn.update (wanderRaw : Vec3) (env : ℕ → PEnv) (dt : ℝ)
    (s : MpPlugInState) : MpPlugInState :=
  let w2 := MpWanderer.update wanderRaw dt s.wanderer
  { wanderer := w2
    pursuers := s.pursuers.mapIdx fun i p => MpPursuer.update (env i).est (env i).rng dt w2 p }

/-- One teardown action of `MpPlugIn::close`, recorded in program order. -/
inductive DestroyEvent where
  | destroyWanderer : DestroyEvent
  | destroyPursuer : ℕ → DestroyEvent
  | clearRoster : DestroyEvent
deriving DecidableEq

/-- `MpPlugIn::close` (src lines 253-259) as its sequence of teardown events in
program order: `delete (wanderer)` runs first, then the loop deletes each
pursuer from `pBegin` to `pEnd` in roster order, then `allMP.clear()`. -/
def MpPlugIn.close (s : MpPlugInState) : List DestroyEvent :=
  DestroyEvent.destroyWanderer ::
    ((List.range s.pursuers.length).map DestroyEvent.destroyPursuer ++
      [DestroyEvent.clearRoster])

/-- `OpenSteerDemo::updateSimulationAndRedraw` (src lines 337-364): the code
calls `clock.update()` but the elapsed time it would report — the argument
`clockElapsed` here — is discarded: the literal `0.006` is passed to
`gMpPlugIn.update` (the `clock.getElapsedSimulationTime()` call is commented
out in the source).  Redrawing is drawing-only and omitted. -/
def updateSimulationAndRedraw (clockElapsed : ℝ) (wanderRaw : Vec3)
    (env : ℕ → PEnv) (s : MpPlugInState) : MpPlugInState :=
  let elapsedTime : ℝ := 0.006
  MpPlugIn.update wanderRaw env elapsedTime s

/-- `foo` (src lines 426-453), the OpenCV-driven path: again the literal
`0.006` is passed to `gMpPlugIn.update`; the OpenCV drawing is omitted. -/
def foo (wanderRaw : Vec3) (env : ℕ → PEnv) (s : MpPlugInState) : MpPlugInState :=
  let elapsedTime : ℝ := 0.006
  MpPlugIn.update wanderRaw env elapsedTime s

/-- A concrete agent used to instantiate theorems: at the origin, heading
`(0,0,1)`, at rest, with the limits `MpBase.reset` establishes and radius
`1/2`. -/
def agent0 : Agent := ⟨⟨0, 0, 0⟩, ⟨0, 0, 1⟩, 0, 5, 3, 1 / 2⟩

/-- A concrete reset-randomness bundle: uniform draw `1/2` (so the ring radius
is `25`) and both random angles `0` (so the drawn directions are `(1,0,0)`). -/
def rng0 : ResetRng := ⟨1 / 2, 0, 0⟩

/-! Unfolding lemmas (definitional, proved by `rfl`) exposing the components
of `applySteeringForce` and the branch structure of `MpPursuer.update`. -/

theorem applySteeringForce_speed (p : Agent) (f : Vec3) (dt : ℝ) :
    (applySteeringForce p f dt).speed =
      min (max (Vec3.length (p.forward * p.speed + truncateLength f p.maxForce * dt)) 0)
        p.maxSpeed := rfl

theorem applySteeringForce_position (p : Agent) (f : Vec3) (dt : ℝ) :
    (applySteeringForce p f dt).position =
      p.position + (p.forward * p.speed + truncateLength f p.maxForce * dt) * dt := rfl

theorem applySteeringForce_forward (p : Agent) (f : Vec3) (dt : ℝ) :
    (applySteeringForce p f dt).forward =
      if 0 < min (max (Vec3.length (p.forward * p.speed + truncateLength f p.maxForce * dt)) 0)
          p.maxSpeed
      then (p.forward * p.speed + truncateLength f p.maxForce * dt).divScalar
        (Vec3.length (p.forward * p.speed + truncateLength f p.maxForce * dt))
      else p.forward := rfl

theorem applySteeringForce_maxSpeed (p : Agent) (f : Vec3) (dt : ℝ) :
    (applySteeringForce p f dt).maxSpeed = p.maxSpeed := rfl

theorem applySteeringForce_maxForce (p : Agent) (f : Vec3) (dt : ℝ) :
    (applySteeringForce p f dt).maxForce = p.maxForce := rfl

theorem pursuerUpdate_eq (est : ℝ) (rng : ResetRng) (dt : ℝ) (w p : Agent) :
    MpPursuer.update est rng dt w p =
      applySteeringForce
        (if Vec3.distance p.position w.position < p.radius + w.radius
          then MpPursuer.reset rng w p else p)
        (steerForPursuit est
          (if Vec3.distance p.position w.position < p.radius + w.radius
            then MpPursuer.reset rng w p else p) w 20) dt := rfl

theorem MpPursuer.reset_speed (rng : ResetRng) (w p : Agent) :
    (MpPursuer.reset rng w p).speed = 0 := rfl

theorem MpPursuer.reset_maxSpeed (rng : ResetRng) (w p : Agent) :
    (MpPursuer.reset rng w p).maxSpeed = 3 := rfl

theorem MpPursuer.reset_position (rng : ResetRng) (w p : Agent) :
    (MpPursuer.reset rng w p).position =
      w.position + RandomUnitVectorOnXZPlane rng.ringAngle * frandom2 rng.ringUnit 20 30 := rfl

theorem MpPursuer.reset_forward (rng : ResetRng) (w p : Agent) :
    (MpPursuer.reset rng w p).forward =
      ⟨Real.cos rng.headingAngle, 0, Real.sin rng.headingAngle⟩ := rfl

theorem wandererUpdate_eq (wanderRaw : Vec3) (dt : ℝ) (p : Agent) :
    MpWanderer.update wanderRaw dt p =
      applySteeringForce p (p.forward + Vec3.setYtoZero wanderRaw * (3 : ℝ)) dt := rfl

/-- The length of a unit XZ-plane vector scaled by a nonnegative radius is
that radius. -/
theorem length_unitXZ_smul (a r : ℝ) (hr : 0 ≤ r) :
    Vec3.length (RandomUnitVectorOnXZPlane a * r) = r := by
  have hsum : (Real.cos a * r) ^ 2 + (0 * r) ^ 2 + (Real.sin a * r) ^ 2 = r ^ 2 := by
    have hpyth := Real.sin_sq_add_cos_sq a
    nlinarith [hpyth]
  show Real.sqrt ((Real.cos a * r) ^ 2 + (0 * r) ^ 2 + (Real.sin a * r) ^ 2) = r
  rw [hsum]
  exact Real.sqrt_sq hr

/-- The random XZ-plane vector is unit length. -/
theorem length_unitXZ (a : ℝ) : Vec3.length (RandomUnitVectorOnXZPlane a) = 1 := by
  have hsum : Real.cos a ^ 2 + 0 ^ 2 + Real.sin a ^ 2 = 1 := by
    have hpyth := Real.sin_sq_add_cos_sq a
    nlinarith [hpyth]
  show Real.sqrt (Real.cos a ^ 2 + 0 ^ 2 + Real.sin a ^ 2) = 1
  rw [hsum]
  exact Real.sqrt_one

/-- Speed after one force application lies in `[0, maxSpeed]` whenever
`maxSpeed` is nonnegative, by the clamping step of the integration. -/
theorem applySteeringForce_speed_bounds (p : Agent) (f : Vec3) (dt : ℝ)
    (h : 0 ≤ p.maxSpeed) :
    0 ≤ (applySteeringForce p f dt).speed ∧
    (applySteeringForce p f dt).speed ≤ p.maxSpeed := by
  rw [applySteeringForce_speed]
  exact ⟨le_min (le_max_right _ _) h, min_le_right _ _⟩

/-- Claim C3: if the quarry's speed is 0 the pursuit steering function's
output equals exactly the output of seek applied to the quarry's current
position: `pursuit(pursuer, quarry, maxPredictionTime) =
seek(quarry.position, pursuer)`. -/
theorem C3_pursuit_degenerates_to_seek (est : ℝ) (p q : Agent) (M : ℝ)
    (h : q.speed = 0) :
    steerForPursuit est p q M = steerForSeek p q.position := by
  show steerForSeek p (q.position + q.forward * (q.speed * predictionTime est M)) =
    steerForSeek p q.position
  have hz : q.forward * (q.speed * predictionTime est M) = ⟨0, 0, 0⟩ := by
    rw [h]; ext <;> simp
  rw [hz]
  have ha : q.position + (⟨0, 0, 0⟩ : Vec3) = q.position := by
    ext <;> simp
  rw [ha]

/-- Claim C3 witness: a stationary quarry at the origin; the pursuit output at
concrete inputs equals the seek output. -/
theorem C3_pursuit_degenerates_to_seek_witness :
    agent0.speed = 0 ∧
    steerForPursuit 7 ⟨⟨25, 0, 0⟩, ⟨1, 0, 0⟩, 2, 5, 3, 1 / 2⟩ agent0 20 =
      steerForSeek ⟨⟨25, 0, 0⟩, ⟨1, 0, 0⟩, 2, 5, 3, 1 / 2⟩ agent0.position :=
  ⟨rfl, C3_pursuit_degenerates_to_seek 7 ⟨⟨25, 0, 0⟩, ⟨1, 0, 0⟩, 2, 5, 3, 1 / 2⟩ agent0 20 rfl⟩

/-- Claim C4: the estimated prediction time is clamped to
`[0, maxPredictionTime]` before being used to extrapolate the quarry's future
position, the predicted position equals
`quarry.position + quarry.forward * quarry.speed * predictionTime`, and the
demo's only call site (`MpPursuer::update`) passes `maxPredictionTime = 20`. -/
theorem C4_prediction_time_clamped (est : ℝ) (p q : Agent) (M : ℝ) (hM : 0 ≤ M) :
    (0 ≤ predictionTime est M ∧ predictionTime est M ≤ M) ∧
    steerForPursuit est p q M =
      steerForSeek p (q.position + q.forward * (q.speed * predictionTime est M)) ∧
    ∀ (rng : ResetRng) (dt : ℝ) (w pp : Agent), ∃ p1 : Agent,
      MpPursuer.update est rng dt w pp =
        applySteeringForce p1 (steerForPursuit est p1 w 20) dt := by
  refine ⟨⟨le_min (le_max_right est 0) hM, min_le_right _ _⟩, rfl, ?_⟩
  intro rng dt w pp
  exact ⟨_, pursuerUpdate_eq est rng dt w pp⟩

/-- Claim C4 witness: the clamp bounds, the predicted-position form of the
pursuit output and the call-site shape, at concrete inputs with
`maxPredictionTime = 20`. -/
theorem C4_prediction_time_clamped_witness :
    (0 : ℝ) ≤ 20 ∧
    ((0 ≤ predictionTime 50 20 ∧ predictionTime 50 20 ≤ 20) ∧
      steerForPursuit 50 agent0 agent0 20 =
        steerForSeek agent0
          (agent0.position + agent0.forward * (agent0.speed * predictionTime 50 20)) ∧
      ∀ (rng : ResetRng) (dt : ℝ) (w pp : Agent), ∃ p1 : Agent,
        MpPursuer.update 50 rng dt w pp =
          applySteeringForce p1 (steerForPursuit 50 p1 w 20) dt) :=
  ⟨by norm_num, C4_prediction_time_clamped 50 agent0 agent0 20 (by norm_num)⟩

/-- Claim C9: both host-loop paths (`updateSimulationAndRedraw`, driven by the
GL loop, and `foo`, the OpenCV path) pass the constant elapsed time `0.006` to
the plug-in's update, ignoring the real-time clock entirely: the result does
not depend on the clock's elapsed value, the two paths agree, and every agent
(wanderer and each pursuer) integrates with `dt = 0.006`. -/
theorem C9_fixed_timestep (c1 c2 : ℝ) (wanderRaw : Vec3) (env : ℕ → PEnv)
    (s : MpPlugInState) :
    updateSimulationAndRedraw c1 wanderRaw env s =
      updateSimulationAndRedraw c2 wanderRaw env s ∧
    updateSimulationAndRedraw c1 wanderRaw env s = foo wanderRaw env s ∧
    (updateSimulationAndRedraw c1 wanderRaw env s).wanderer =
      MpWanderer.update wanderRaw 0.006 s.wanderer ∧
    (updateSimulationAndRedraw c1 wanderRaw env s).pursuers =
      s.pursuers.mapIdx fun i p =>
        MpPursuer.update (env i).est (env i).rng 0.006
          (MpWanderer.update wanderRaw 0.006 s.wanderer) p :=
  ⟨rfl, rfl, rfl, rfl⟩

/-- Claim C2: after a contact-triggered reset the pursuer's new position lies
at distance in `[20, 30]` from the quarry's position read at reset time, and
the new position equals the quarry position plus a unit XZ-plane vector scaled
by a radius drawn from `[20, 30]`. -/
theorem C2_reset_on_ring (rng : ResetRng) (w p : Agent)
    (h0 : 0 ≤ rng.ringUnit) (h1 : rng.ringUnit ≤ 1) :
    20 ≤ Vec3.distance (MpPursuer.reset rng w p).position w.position ∧
    Vec3.distance (MpPursuer.reset rng w p).position w.position ≤ 30 ∧
    (MpPursuer.reset rng w p).position =
      w.position + RandomUnitVectorOnXZPlane rng.ringAngle * frandom2 rng.ringUnit 20 30 ∧
    (RandomUnitVectorOnXZPlane rng.ringAngle).y = 0 ∧
    Vec3.length (RandomUnitVectorOnXZPlane rng.ringAngle) = 1 ∧
    20 ≤ frandom2 rng.ringUnit 20 30 ∧ frandom2 rng.ringUnit 20 30 ≤ 30 := by
  have hr20 : 20 ≤ frandom2 rng.ringUnit 20 30 := by unfold frandom2; nlinarith
  have hr30 : frandom2 rng.ringUnit 20 30 ≤ 30 := by unfold frandom2; nlinarith
  have hd : Vec3.distance (MpPursuer.reset rng w p).position w.position =
      frandom2 rng.ringUnit 20 30 := by
    rw [MpPursuer.reset_position]
    unfold Vec3.distance
    have hcancel :
        (w.position + RandomUnitVectorOnXZPlane rng.ringAngle * frandom2 rng.ringUnit 20 30) -
          w.position = RandomUnitVectorOnXZPlane rng.ringAngle * frandom2 rng.ringUnit 20 30 := by
      ext <;> simp
    rw [hcancel]
    exact length_unitXZ_smul _ _ (by linarith)
  refine ⟨?_, ?_, MpPursuer.reset_position rng w p, rfl, length_unitXZ _, hr20, hr30⟩
  · rw [hd]; exact hr20
  · rw [hd]; exact hr30

/-- Claim C2 witness: concrete reset with uniform draw `1/2` and both angles
`0`; the distance bounds and the ring decomposition hold there. -/
theorem C2_reset_on_ring_witness :
    20 ≤ Vec3.distance (MpPursuer.reset rng0 agent0 agent0).position agent0.position ∧
    Vec3.distance (MpPursuer.reset rng0 agent0 agent0).position agent0.position ≤ 30 ∧
    (MpPursuer.reset rng0 agent0 agent0).position =
      agent0.position + RandomUnitVectorOnXZPlane rng0.ringAngle * frandom2 rng0.ringUnit 20 30 ∧
    (RandomUnitVectorOnXZPlane rng0.ringAngle).y = 0 ∧
    Vec3.length (RandomUnitVectorOnXZPlane rng0.ringAngle) = 1 ∧
    20 ≤ frandom2 rng0.ringUnit 20 30 ∧ frandom2 rng0.ringUnit 20 30 ≤ 30 :=
  C2_reset_on_ring rng0 agent0 agent0 (by norm_num [rng0]) (by norm_num [rng0])

/-- Claim C6: reset establishes `speed = 0` with `maxSpeed = 3`, the
integration step clamps the new speed to `[0, maxSpeed]`, and both the
wanderer's and the pursuer's tick preserve `speed ∈ [0, maxSpeed]`. -/
theorem C6_speed_in_bounds :
    (∀ p : Agent, (MpBase.reset p).speed = 0 ∧ (MpBase.reset p).maxSpeed = 3) ∧
    (∀ (p : Agent) (f : Vec3) (dt : ℝ), 0 ≤ p.maxSpeed →
      0 ≤ (applySteeringForce p f dt).speed ∧
      (applySteeringForce p f dt).speed ≤ (applySteeringForce p f dt).maxSpeed) ∧
    (∀ (wanderRaw : Vec3) (dt : ℝ) (p : Agent), 0 ≤ p.speed → p.speed ≤ p.maxSpeed →
      0 ≤ (MpWanderer.update wanderRaw dt p).speed ∧
      (MpWanderer.update wanderRaw dt p).speed ≤ (MpWanderer.update wanderRaw dt p).maxSpeed) ∧
    ∀ (est : ℝ) (rng : ResetRng) (dt : ℝ) (w p : Agent),
      0 ≤ p.speed → p.speed ≤ p.maxSpeed →
      0 ≤ (MpPursuer.update est rng dt w p).speed ∧
      (MpPursuer.update est rng dt w p).speed ≤ (MpPursuer.update est rng dt w p).maxSpeed := by
  refine ⟨fun p => ⟨rfl, rfl⟩, ?_, ?_, ?_⟩
  · intro p f dt h
    rw [applySteeringForce_maxSpeed]
    exact applySteeringForce_speed_bounds p f dt h
  · intro wanderRaw dt p h0 h1
    rw [wandererUpdate_eq, applySteeringForce_maxSpeed]
    exact applySteeringForce_speed_bounds p _ dt (le_trans h0 h1)
  · intro est rng dt w p h0 h1
    rw [pursuerUpdate_eq, applySteeringForce_maxSpeed]
    by_cases hc : Vec3.distance p.position w.position < p.radius + w.radius
    · rw [if_pos hc]
      exact applySteeringForce_speed_bounds _ _ dt
        (by rw [MpPursuer.reset_maxSpeed]; norm_num)
    · rw [if_neg hc]
      exact applySteeringForce_speed_bounds p _ dt (le_trans h0 h1)

/-- Claim C6 witness: the invariant instantiated on a concrete at-rest agent
in a concrete pursuer tick. -/
theorem C6_speed_in_bounds_witness :
    0 ≤ (MpPursuer.update 0 rng0 0.006 agent0 agent0).speed ∧
    (MpPursuer.update 0 rng0 0.006 agent0 agent0).speed ≤
      (MpPursuer.update 0 rng0 0.006 agent0 agent0).maxSpeed :=
  C6_speed_in_bounds.2.2.2 0 rng0 0.006 agent0 agent0 (by norm_num [agent0]) (by norm_num [agent0])

/-- Claim C7: after open the roster holds exactly one wanderer at index 0
followed by exactly `pursuerCount` pursuers in creation order, and every
simulation step advances the wanderer first (each pursuer chases the wanderer
state already produced by this tick's wanderer update) and then each pursuer
in that fixed order; no step adds or removes agents or changes their order. -/
theorem C7_roster_order (n : ℤ) (initW : Agent) (initP : ℕ → Agent)
    (rngs : ℕ → ResetRng) (hn : 0 ≤ n) :
    MpPlugIn.allVehicles (MpPlugIn.openRoster n initW initP rngs) =
      MpWanderer.reset initW ::
        (List.range n.toNat).map
          (fun i => MpPursuer.reset (rngs i) (MpWanderer.reset initW) (initP i)) ∧
    ((MpPlugIn.openRoster n initW initP rngs).pursuers.length : ℤ) = n ∧
    ∀ (wanderRaw : Vec3) (env : ℕ → PEnv) (dt : ℝ) (s : MpPlugInState),
      (MpPlugIn.update wanderRaw env dt s).wanderer =
        MpWanderer.update wanderRaw dt s.wanderer ∧
      (MpPlugIn.update wanderRaw env dt s).pursuers =
        s.pursuers.mapIdx (fun i p =>
          MpPursuer.update (env i).est (env i).rng dt
            (MpWanderer.update wanderRaw dt s.wanderer) p) ∧
      (MpPlugIn.update wanderRaw env dt s).pursuers.length = s.pursuers.length := by
  refine ⟨rfl, ?_, ?_⟩
  · simp [MpPlugIn.openRoster, Int.toNat_of_nonneg hn]
  · intro wanderRaw env dt s
    refine ⟨rfl, rfl, ?_⟩
    simp [MpPlugIn.update]

/-- Claim C7 witness: a roster opened with two pursuers has exactly two. -/
theorem C7_roster_order_witness :
    ((MpPlugIn.openRoster 2 agent0 (fun _ => agent0) (fun _ => rng0)).pursuers.length : ℤ) = 2 :=
  (C7_roster_order 2 agent0 (fun _ => agent0) (fun _ => rng0) (by norm_num)).2.1

/-- Claim C8 counterexample: in `MpPlugIn::close` the wanderer is destroyed
at position 0 of the teardown sequence and the pursuer only at position 1 —
the pursuer, holding its non-owning wanderer reference, is destroyed strictly
after the wanderer, contradicting the claim that pursuers are destroyed before
or together with the wanderer and never after it. -/
theorem C8_counterexample :
    (MpPlugIn.close ⟨agent0, [agent0]⟩)[0]? = some DestroyEvent.destroyWanderer ∧
    (MpPlugIn.close ⟨agent0, [agent0]⟩)[1]? = some (DestroyEvent.destroyPursuer 0) :=
  ⟨rfl, rfl⟩

/-- Claim C8 amended: during teardown the wanderer is destroyed first (event
position 0), pursuer `i` is destroyed at event position `i + 1` — strictly
after the wanderer and in roster order — and the roster is cleared at the
final position, after every pursuer; the destruction order is thus the
reverse of what the claim states. -/
theorem C8_wanderer_destroyed_first (s : MpPlugInState) :
    (MpPlugIn.close s).head? = some DestroyEvent.destroyWanderer ∧
    (∀ i, i < s.pursuers.length →
      (MpPlugIn.close s)[i + 1]? = some (DestroyEvent.destroyPursuer i)) ∧
    (MpPlugIn.close s)[s.pursuers.length + 1]? = some DestroyEvent.clearRoster ∧
    (MpPlugIn.close s).length = s.pursuers.length + 2 := by
  refine ⟨rfl, ?_, ?_, ?_⟩
  · intro i hi
    unfold MpPlugIn.close
    rw [List.getElem?_cons_succ]
    simp [List.getElem?_append, hi]
  · unfold MpPlugIn.close
    rw [List.getElem?_cons_succ]
    simp [List.getElem?_append]
  · unfold MpPlugIn.close
    simp

/-- Claim C8 amended witness: the teardown of a one-pursuer roster destroys
pursuer 0 at position 1, strictly after the wanderer at position 0. -/
theorem C8_wanderer_destroyed_first_witness :
    (MpPlugIn.close ⟨agent0, [agent0]⟩)[0 + 1]? = some (DestroyEvent.destroyPursuer 0) :=
  (C8_wanderer_destroyed_first ⟨agent0, [agent0]⟩).2.1 0 (by norm_num)

/-- A clamped force with zero vertical component keeps a zero vertical
component: both branches of the clamp scale componentwise. -/
theorem truncateLength_y (v : Vec3) (m : ℝ) (h : v.y = 0) :
    (truncateLength v m).y = 0 := by
  unfold truncateLength
  split
  · exact h
  · simp [Vec3.smul_def, h]

/-- Integration preserves the horizontal plane: a horizontal heading and a
horizontal force leave the vertical position unchanged and the new heading
horizontal. -/
theorem applySteeringForce_y_plane (p : Agent) (f : Vec3) (dt : ℝ)
    (hf : p.forward.y = 0) (hforce : f.y = 0) :
    (applySteeringForce p f dt).position.y = p.position.y ∧
    (applySteeringForce p f dt).forward.y = 0 := by
  have hcy : (truncateLength f p.maxForce).y = 0 := truncateLength_y f p.maxForce hforce
  constructor
  · rw [applySteeringForce_position]
    simp [Vec3.add_def, Vec3.smul_def, hf, hcy]
  · rw [applySteeringForce_forward]
    split
    · simp [Vec3.divScalar, Vec3.add_def, Vec3.smul_def, hf, hcy]
    · exact hf

/-- Claim C10: the wanderer's per-tick steering force equals
`forward() + 3 * (wander output with Y zeroed)`, its vertical component equals
that of `forward`, and a wanderer with horizontal heading keeps its vertical
position and a horizontal heading. -/
theorem C10_wanderer_planar (wanderRaw : Vec3) (dt : ℝ) (p : Agent) :
    MpWanderer.update wanderRaw dt p =
      applySteeringForce p (p.forward + Vec3.setYtoZero wanderRaw * (3 : ℝ)) dt ∧
    (p.forward + Vec3.setYtoZero wanderRaw * (3 : ℝ)).y = p.forward.y ∧
    (p.forward.y = 0 →
      (MpWanderer.update wanderRaw dt p).position.y = p.position.y ∧
      (MpWanderer.update wanderRaw dt p).forward.y = 0) := by
  refine ⟨rfl, by simp [Vec3.setYtoZero, Vec3.add_def, Vec3.smul_def], ?_⟩
  intro hf
  rw [wandererUpdate_eq]
  exact applySteeringForce_y_plane p _ dt hf
    (by simp [Vec3.setYtoZero, Vec3.add_def, Vec3.smul_def, hf])

/-- Claim C10 witness: a concrete horizontal-heading wanderer with a wander
draw that has a nonzero vertical component stays in the XZ plane. -/
theorem C10_wanderer_planar_witness :
    (MpWanderer.update ⟨1, 2, 3⟩ 0.006 agent0).position.y = agent0.position.y ∧
    (MpWanderer.update ⟨1, 2, 3⟩ 0.006 agent0).forward.y = 0 :=
  (C10_wanderer_planar ⟨1, 2, 3⟩ 0.006 agent0).2.2 rfl

/-- The distance of the concrete agent's position from itself is zero. -/
theorem dist_agent0_self : Vec3.distance agent0.position agent0.position = 0 := by
  unfold Vec3.distance
  have hz : agent0.position - agent0.position = ⟨0, 0, 0⟩ := by ext <;> simp
  rw [hz]
  show Real.sqrt (0 ^ 2 + 0 ^ 2 + 0 ^ 2) = 0
  simp

/-- Claim C1 counterexample: at a contact tick (pursuer and quarry coincide,
so the distance `0` is below the radius sum `1`), the pursuer's post-tick
state is NOT the reset state: the reset state has speed `0`, but the code
applies the pursuit steering force after `reset()` with no `else`, leaving
post-tick speed `3/100` (the clipped force of magnitude 5 integrated over
`dt = 0.006` from rest). -/
theorem C1_counterexample :
    Vec3.distance agent0.position agent0.position < agent0.radius + agent0.radius ∧
    (MpPursuer.reset rng0 agent0 agent0).speed = 0 ∧
    (MpPursuer.update 0 rng0 0.006 agent0 agent0).speed = 3 / 100 := by
  have hc : Vec3.distance agent0.position agent0.position < agent0.radius + agent0.radius := by
    rw [dist_agent0_self]; norm_num [agent0]
  refine ⟨hc, rfl, ?_⟩
  have hreset : MpPursuer.reset rng0 agent0 agent0 =
      (⟨⟨25, 0, 0⟩, ⟨1, 0, 0⟩, 0, 5, 3, 1 / 2⟩ : Agent) := by
    unfold MpPursuer.reset MpPursuer.randomizeStartingPositionAndHeading MpBase.reset
      SimpleVehicle.reset randomizeHeadingOnXZPlane RandomUnitVectorOnXZPlane frandom2
      rng0 agent0 Vec3.zero
    ext <;> simp <;> norm_num
  have hsteer : steerForPursuit 0
      (⟨⟨25, 0, 0⟩, ⟨1, 0, 0⟩, 0, 5, 3, 1 / 2⟩ : Agent) agent0 20 = ⟨-25, 0, 0⟩ := by
    show steerForSeek (⟨⟨25, 0, 0⟩, ⟨1, 0, 0⟩, 0, 5, 3, 1 / 2⟩ : Agent)
      (agent0.position + agent0.forward * (agent0.speed * predictionTime 0 20)) = ⟨-25, 0, 0⟩
    unfold steerForSeek predictionTime agent0
    ext <;> simp
  rw [pursuerUpdate_eq, if_pos hc, hreset, hsteer]
  rw [applySteeringForce_speed]
  have htrunc : truncateLength ⟨-25, 0, 0⟩
      ((⟨⟨25, 0, 0⟩, ⟨1, 0, 0⟩, 0, 5, 3, 1 / 2⟩ : Agent)).maxForce = ⟨-5, 0, 0⟩ := by
    have hlen25 : Vec3.length ⟨-25, 0, 0⟩ = 25 := by
      show Real.sqrt ((-25 : ℝ) ^ 2 + 0 ^ 2 + 0 ^ 2) = 25
      rw [show ((-25 : ℝ)) ^ 2 + 0 ^ 2 + 0 ^ 2 = 25 ^ 2 by norm_num]
      exact Real.sqrt_sq (by norm_num)
    unfold truncateLength
    rw [hlen25]
    rw [if_neg (by norm_num)]
    ext <;> norm_num
  have hv : (⟨⟨25, 0, 0⟩, ⟨1, 0, 0⟩, 0, 5, 3, 1 / 2⟩ : Agent).forward *
        (⟨⟨25, 0, 0⟩, ⟨1, 0, 0⟩, 0, 5, 3, 1 / 2⟩ : Agent).speed +
      truncateLength ⟨-25, 0, 0⟩
        ((⟨⟨25, 0, 0⟩, ⟨1, 0, 0⟩, 0, 5, 3, 1 / 2⟩ : Agent)).maxForce * (0.006 : ℝ) =
      ⟨-(3 / 100), 0, 0⟩ := by
    rw [htrunc]
    ext <;> norm_num
  rw [hv]
  have hlenv : Vec3.length ⟨-(3 / 100), 0, 0⟩ = 3 / 100 := by
    show Real.sqrt ((-(3 / 100) : ℝ) ^ 2 + 0 ^ 2 + 0 ^ 2) = 3 / 100
    rw [show ((-(3 / 100) : ℝ)) ^ 2 + 0 ^ 2 + 0 ^ 2 = (3 / 100) ^ 2 by norm_num]
    exact Real.sqrt_sq (by norm_num)
  rw [hlenv]
  show min (max (3 / 100) 0) (3 : ℝ) = 3 / 100
  rw [max_eq_left (by norm_num), min_eq_left (by norm_num)]

/-- Claim C1 amended: on a contact tick the pursuer is reset — position
redrawn on the ring around the current quarry position, heading randomized in
the horizontal plane, speed set to 0 — but the pursuit steering force is then
applied unconditionally to the reset state in the same tick (the source has no
`else` branch), so the post-tick state is the reset state with one steering
integration step applied, not the reset state itself. -/
theorem C1_reset_tick_still_steered (est : ℝ) (rng : ResetRng) (dt : ℝ) (w p : Agent)
    (hc : Vec3.distance p.position w.position < p.radius + w.radius) :
    MpPursuer.update est rng dt w p =
      applySteeringForce (MpPursuer.reset rng w p)
        (steerForPursuit est (MpPursuer.reset rng w p) w 20) dt ∧
    (MpPursuer.reset rng w p).speed = 0 ∧
    (MpPursuer.reset rng w p).forward =
      ⟨Real.cos rng.headingAngle, 0, Real.sin rng.headingAngle⟩ ∧
    (MpPursuer.reset rng w p).position =
      w.position + RandomUnitVectorOnXZPlane rng.ringAngle * frandom2 rng.ringUnit 20 30 := by
  rw [pursuerUpdate_eq, if_pos hc]
  exact ⟨rfl, rfl, rfl, rfl⟩

/-- Claim C1 amended witness: the contact tick at coinciding positions takes
the reset-then-steer form. -/
theorem C1_reset_tick_still_steered_witness :
    MpPursuer.update 0 rng0 0.006 agent0 agent0 =
      applySteeringForce (MpPursuer.reset rng0 agent0 agent0)
        (steerForPursuit 0 (MpPursuer.reset rng0 agent0 agent0) agent0 20) 0.006 ∧
    (MpPursuer.reset rng0 agent0 agent0).speed = 0 ∧
    (MpPursuer.reset rng0 agent0 agent0).forward =
      ⟨Real.cos rng0.headingAngle, 0, Real.sin rng0.headingAngle⟩ ∧
    (MpPursuer.reset rng0 agent0 agent0).position =
      agent0.position + RandomUnitVectorOnXZPlane rng0.ringAngle * frandom2 rng0.ringUnit 20 30 :=
  C1_reset_tick_still_steered 0 rng0 0.006 agent0 agent0
    (by rw [dist_agent0_self]; norm_num [agent0])

/-- Claim C5 counterexample: there is no boundary validation.  With
`pursuerCount = -1` the roster is silently created with zero pursuers rather
than rejected, and a step with `dt = -1 ≤ 0` is not rejected before state
mutation: it fully applies, changing the wanderer's speed from 0 to 1. -/
theorem C5_counterexample :
    (MpPlugIn.openRoster (-1) agent0 (fun _ => agent0) (fun _ => rng0)).pursuers = [] ∧
    ((-1 : ℝ) ≤ 0) ∧
    agent0.speed = 0 ∧
    (MpPlugIn.update ⟨0, 0, 0⟩ (fun _ => ⟨0, rng0⟩) (-1) ⟨agent0, []⟩).wanderer.speed = 1 := by
  refine ⟨rfl, by norm_num, rfl, ?_⟩
  show (MpWanderer.update ⟨0, 0, 0⟩ (-1) agent0).speed = 1
  rw [wandererUpdate_eq, applySteeringForce_speed]
  have hsteer : agent0.forward + Vec3.setYtoZero ⟨0, 0, 0⟩ * (3 : ℝ) = ⟨0, 0, 1⟩ := by
    unfold agent0 Vec3.setYtoZero
    ext <;> norm_num
  rw [hsteer]
  have hlen1 : Vec3.length ⟨0, 0, 1⟩ = 1 := by
    show Real.sqrt ((0 : ℝ) ^ 2 + 0 ^ 2 + 1 ^ 2) = 1
    rw [show ((0 : ℝ)) ^ 2 + 0 ^ 2 + 1 ^ 2 = 1 ^ 2 by norm_num]
    exact Real.sqrt_sq (by norm_num)
  have htrunc : truncateLength ⟨0, 0, 1⟩ agent0.maxForce = ⟨0, 0, 1⟩ := by
    unfold truncateLength
    rw [hlen1]
    rw [if_pos (by norm_num [agent0])]
  have hv : agent0.forward * agent0.speed +
      truncateLength ⟨0, 0, 1⟩ agent0.maxForce * (-1 : ℝ) = ⟨0, 0, -1⟩ := by
    rw [htrunc]
    unfold agent0
    ext <;> norm_num
  rw [hv]
  have hlenv : Vec3.length ⟨0, 0, -1⟩ = 1 := by
    show Real.sqrt ((0 : ℝ) ^ 2 + 0 ^ 2 + (-1) ^ 2) = 1
    rw [show ((0 : ℝ)) ^ 2 + 0 ^ 2 + (-1) ^ 2 = 1 ^ 2 by norm_num]
    exact Real.sqrt_sq (by norm_num)
  rw [hlenv]
  show min (max 1 0) agent0.maxSpeed = 1
  rw [max_eq_left (by norm_num)]
  rw [show agent0.maxSpeed = 3 from rfl]
  rw [min_eq_left (by norm_num)]

/-- Claim C5 amended: neither `pursuerCount < 0` nor `dt ≤ 0` is rejected at
the boundary: a negative pursuer count silently yields a roster with zero
pursuers (the creation loop body never runs), and `update` fully applies the
tick for every `dt`, including `dt ≤ 0` — there is no rejection path. -/
theorem C5_no_boundary_validation (n : ℤ) (initW : Agent) (initP : ℕ → Agent)
    (rngs : ℕ → ResetRng) (hn : n < 0) (wanderRaw : Vec3) (env : ℕ → PEnv)
    (dt : ℝ) (hdt : dt ≤ 0) (s : MpPlugInState) :
    (MpPlugIn.openRoster n initW initP rngs).pursuers = [] ∧
    MpPlugIn.update wanderRaw env dt s =
      { wanderer := MpWanderer.update wanderRaw dt s.wanderer
        pursuers := s.pursuers.mapIdx fun i p =>
          MpPursuer.update (env i).est (env i).rng dt
            (MpWanderer.update wanderRaw dt s.wanderer) p } := by
  constructor
  · unfold MpPlugIn.openRoster
    simp [Int.toNat_eq_zero.mpr (le_of_lt hn)]
  · rfl

/-- Claim C5 amended witness: opening with `-2` pursuers yields none, and a
step with `dt = -1` on a concrete roster fully applies. -/
theorem C5_no_boundary_validation_witness :
    (MpPlugIn.openRoster (-2) agent0 (fun _ => agent0) (fun _ => rng0)).pursuers = [] ∧
    MpPlugIn.update ⟨0, 0, 0⟩ (fun _ => ⟨0, rng0⟩) (-1) ⟨agent0, []⟩ =
      { wanderer := MpWanderer.update ⟨0, 0, 0⟩ (-1) (⟨agent0, []⟩ : MpPlugInState).wanderer
        pursuers := (⟨agent0, []⟩ : MpPlugInState).pursuers.mapIdx fun i p =>
          MpPursuer.update ((fun _ => (⟨0, rng0⟩ : PEnv)) i).est
            ((fun _ => (⟨0, rng0⟩ : PEnv)) i).rng (-1)
            (MpWanderer.update ⟨0, 0, 0⟩ (-1) (⟨agent0, []⟩ : MpPlugInState).wanderer) p } :=
  C5_no_boundary_validation (-2) agent0 (fun _ => agent0) (fun _ => rng0) (by norm_num)
    ⟨0, 0, 0⟩ (fun _ => ⟨0, rng0⟩) (-1) (by norm_num) ⟨agent0, []⟩
